import Mathlib

/-!
Shallow embedding of the report-tool repository (TaskManager, ReportManager,
StorageManager, utils) and proofs about the claims on its behaviour.

Stateful JavaScript methods are modelled as pure functions: `this.tasks` and
`this.state` become explicit arguments and results; `localStorage.setItem`
(which may throw `QuotaExceededError`) is modelled by an oracle
`fits : List HistoryItem → Bool` saying whether a given write succeeds; the
storage-availability probe is modelled as available (every claim concerns
the available-storage behaviour).
-/

namespace ReportTool

/-- A task record, from `TaskManager.addTask`: `{detail, status, remark}`.
Statuses are plain strings in the source ("OK", "Pending", ...). -/
structure Task where
  detail : String
  status : String
  remark : String
deriving DecidableEq, Repr

/-- The default task produced by `taskManager.addTask()` with no argument:
`{detail: '', status: 'OK', remark: ''}`. -/
def blankTask : Task := ⟨"", "OK", ""⟩

/-- A report snapshot, the shape returned by `ReportManager.getState()`:
scalar fields plus the task list. -/
structure Snapshot where
  workBom : String
  projectName : String
  problems : String
  tasks : List Task
deriving DecidableEq, Repr

/-- The in-memory state of the session: `reportManager.state` (the three
scalar fields) together with `taskManager.tasks`. -/
structure AppState where
  workBom : String
  projectName : String
  problems : String
  tasks : List Task
deriving DecidableEq, Repr

/-- `ReportManager.getState()`: the current scalar fields merged with
`taskManager.getTasks()`. -/
def getState (s : AppState) : Snapshot :=
  ⟨s.workBom, s.projectName, s.problems, s.tasks⟩

/-- `ReportManager.restoreFromHistory(historyData)`: replaces the scalar
fields (`historyData.workBom || ''` is the identity on strings) and the task
list; when the incoming snapshot has no tasks, `clearTasks()` followed by
`addTask()` leaves exactly one blank task. -/
def restoreFromHistory (h : Snapshot) : AppState :=
  { workBom := h.workBom
    projectName := h.projectName
    problems := h.problems
    tasks := if h.tasks.length > 0 then h.tasks else [blankTask] }

/-- The `data` field of an export/import envelope: each field may be absent
in imported JSON, hence the `Option`s. -/
structure SnapshotIn where
  workBom : Option String
  projectName : Option String
  problems : Option String
  tasks : Option (List Task)
deriving DecidableEq, Repr

/-- An export/import envelope; only the `data` field matters to the
importer (`version` and `exportDate` are never read back). -/
structure ImportEnvelope where
  data : Option SnapshotIn
deriving DecidableEq, Repr

/-- `ReportManager.import(importData)` (named `importReport` here because of
the Lean keyword): absent `data` throws, is caught, and returns `false`
leaving the state untouched; otherwise scalar fields are replaced
(`data.f || ''`), and `taskManager.setTasks(data.tasks)` runs only when
`data.tasks` is present (in JavaScript an empty array is truthy, so a
present-but-empty task list does replace the live tasks with zero tasks). -/
def importReport (env : ImportEnvelope) (s : AppState) : Bool × AppState :=
  match env.data with
  | none => (false, s)
  | some d =>
      (true,
       { workBom := d.workBom.getD ""
         projectName := d.projectName.getD ""
         problems := d.problems.getD ""
         tasks := match d.tasks with
                  | some ts => ts
                  | none => s.tasks })

/-- JavaScript's `String.prototype.trim()`: strips whitespace from both ends.
Modelled over the character list (whitespace per `Char.isWhitespace`). -/
def jsTrim (s : String) : String :=
  ⟨((s.data.dropWhile Char.isWhitespace).reverse.dropWhile
      Char.isWhitespace).reverse⟩

/-! ## Report serialization (`ReportManager.generateReport`) -/

/-- The lines the `forEach` body of `generateReport` pushes for the task at
(zero-based) array position `index`: nothing when `task.detail` is empty,
otherwise the numbered detail line (numbered `index + 1`), the status line,
and the remark line unless the remark is empty or `"-"`. -/
def taskEntry (index : Nat) (task : Task) : List String :=
  if task.detail ≠ "" then
    [toString (index + 1) ++ ". " ++ task.detail,
     "   🚦 Status: " ++ task.status]
    ++ (if task.remark ≠ "" ∧ task.remark ≠ "-" then
          ["   💬 Remark: " ++ task.remark]
        else [])
  else []

/-- The `data.tasks.forEach((task, index) => ...)` loop of `generateReport`,
carrying the running array index `i`. -/
def taskEntriesFrom (i : Nat) : List Task → List String
  | [] => []
  | t :: ts => taskEntry i t ++ taskEntriesFrom (i + 1) ts

/-- `ReportManager.generateReport()`, as a pure function of the snapshot and
of the formatted date string (`formatDate(new Date())` in the source). -/
def generateReport (dateStr : String) (data : Snapshot) : String :=
  let separator := "------------------------------"
  let parts : List String :=
    ["📅 รายงานวันที่: " ++ dateStr]
    ++ (if data.workBom ≠ "" then ["🔖 Work BOM : " ++ data.workBom] else [])
    ++ (if data.projectName ≠ "" then ["🏷️ Project : " ++ data.projectName] else [])
    ++ (if data.workBom ≠ "" ∨ data.projectName ≠ "" then [separator] else [])
    ++ ["✅ **รายละเอียดงาน**"]
    ++ (if data.tasks.length > 0 then
          if data.tasks.any (fun t => t.detail ≠ "") then
            taskEntriesFrom 0 data.tasks
          else ["- ไม่มีรายการ -"]
        else ["- ไม่มีรายการ -"])
    ++ (if data.problems ≠ "" then [separator, "📌 **ปัญหา**", data.problems] else [])
  jsTrim (String.intercalate "\n" parts)

/-! ## Validation (`utils.js`) -/

/-- The regular expression `/^WB-[A-Z]\d{4}-\d{4}-[A-Z]$/i` of
`validateWorkBom`, as a predicate on the character list of the (already
trimmed) candidate: `W`/`w`, `B`/`b`, `-`, one ASCII letter, four ASCII
digits, `-`, four ASCII digits, `-`, one ASCII letter — 15 characters. -/
def matchWorkBomPattern : List Char → Bool
  | [c0, c1, c2, c3, c4, c5, c6, c7, c8, c9, c10, c11, c12, c13, c14] =>
      (c0 == 'W' || c0 == 'w') && (c1 == 'B' || c1 == 'b') && c2 == '-'
      && c3.isAlpha && c4.isDigit && c5.isDigit && c6.isDigit && c7.isDigit
      && c8 == '-' && c9.isDigit && c10.isDigit && c11.isDigit && c12.isDigit
      && c13 == '-' && c14.isAlpha
  | _ => false

/-- `validateWorkBom(value)` from `utils.js`: empty or whitespace-only input
is valid (optional field); otherwise the regex is tested against
`value.trim()`. -/
def validateWorkBom (value : String) : Bool :=
  if jsTrim value = "" then true
  else matchWorkBomPattern (jsTrim value).data

/-- `validateProjectName(value)` from `utils.js`: empty or whitespace-only
input is valid; otherwise the trimmed value must be 3–200 characters. -/
def validateProjectName (value : String) : Bool :=
  if jsTrim value = "" then true
  else 3 ≤ (jsTrim value).length && (jsTrim value).length ≤ 200

/-! ## Task reordering (`TaskManager.moveTaskUp` / `moveTaskDown`) -/

/-- `TaskManager.moveTaskUp(index)`: guard `index <= 0 || index >= length`
returns `false` unchanged; otherwise the destructuring assignment
`[t[i-1], t[i]] = [t[i], t[i-1]]` swaps the record with its predecessor. -/
def moveTaskUp (index : Int) (tasks : List Task) : Bool × List Task :=
  if index ≤ 0 ∨ (tasks.length : Int) ≤ index then (false, tasks)
  else
    (true,
     (tasks.set (index.toNat - 1) (tasks.getD index.toNat blankTask)).set
       index.toNat (tasks.getD (index.toNat - 1) blankTask))

/-- `TaskManager.moveTaskDown(index)`: guard `index < 0 || index >= length-1`
returns `false` unchanged; otherwise `[t[i], t[i+1]] = [t[i+1], t[i]]` swaps
the record with its successor. -/
def moveTaskDown (index : Int) (tasks : List Task) : Bool × List Task :=
  if index < 0 ∨ (tasks.length : Int) - 1 ≤ index then (false, tasks)
  else
    (true,
     (tasks.set index.toNat (tasks.getD (index.toNat + 1) blankTask)).set
       (index.toNat + 1) (tasks.getD index.toNat blankTask))

/-! ## Persistence (`StorageManager`) -/

/-- A stored history entry: localized timestamp plus a deep copy of the
snapshot (`structuredClone`; value semantics here, so the copy is the
value itself). -/
structure HistoryItem where
  timestamp : String
  data : Snapshot
deriving DecidableEq, Repr

/-- `MAX_HISTORY_ITEMS` from `StorageManager.js`. -/
def MAX_HISTORY_ITEMS : Nat := 20

/-- The "don't save empty reports" guard of `StorageManager.saveToHistory`:
`!data.workBom && !data.projectName && (!data.tasks || data.tasks.length === 0 || !data.tasks[0].detail)`.
Note it inspects only the FIRST task's detail. -/
def refusedAsEmpty (data : Snapshot) : Bool :=
  data.workBom == "" && data.projectName == "" &&
    (match data.tasks with
     | [] => true
     | t :: _ => t.detail == "")

/-- `StorageManager.handleQuotaExceeded()`: re-loads the stored history and,
only when it has more than 5 entries, truncates it to `floor(length / 2)`
(keeping the most recent, front, entries) and writes it back; the write-back
is itself inside `try`/`catch`, so a failed write-back leaves the store
unchanged. No retry of the original failed write is performed. -/
def handleQuotaExceeded (fits : List HistoryItem → Bool)
    (stored : List HistoryItem) : List HistoryItem :=
  if stored.length > 5 then
    let halved := stored.take (stored.length / 2)
    if fits halved then halved else stored
  else stored

/-- `StorageManager.saveToHistory(data)`: refuses semantically-empty-looking
snapshots; otherwise prepends a timestamped deep copy, truncates to
`MAX_HISTORY_ITEMS`, and attempts the write. A quota failure triggers
`handleQuotaExceeded` and the call returns `false`. Returns the success flag
together with the resulting stored history. -/
def saveToHistory (fits : List HistoryItem → Bool) (timestamp : String)
    (data : Snapshot) (stored : List HistoryItem) : Bool × List HistoryItem :=
  if refusedAsEmpty data then (false, stored)
  else
    let newHistory := (⟨timestamp, data⟩ :: stored).take MAX_HISTORY_ITEMS
    if fits newHistory then (true, newHistory)
    else (false, handleQuotaExceeded fits stored)

/-! ## Helper lemmas -/

/-- An empty-detail task contributes no lines to the report. -/
theorem taskEntry_of_detail_empty {i : Nat} {t : Task} (h : t.detail = "") :
    taskEntry i t = [] := by
  simp [taskEntry, h]

/-- The serializer's task loop emits exactly the entries of the tasks with
non-empty detail, each numbered by its absolute array position. -/
theorem taskEntriesFrom_eq_filter (tasks : List Task) : ∀ i : Nat,
    taskEntriesFrom i tasks
      = (((tasks.enumFrom i).filter (fun p => p.2.detail != "")).map
          (fun p => taskEntry p.1 p.2)).flatten := by
  induction tasks with
  | nil => intro i; simp [taskEntriesFrom]
  | cons t ts ih =>
      intro i
      by_cases h : t.detail = ""
      · simp [taskEntriesFrom, List.enumFrom, h, taskEntry_of_detail_empty h,
          ih (i + 1)]
      · simp [taskEntriesFrom, List.enumFrom, h, ih (i + 1)]

/-- The numbered detail line of a non-empty-detail task at absolute position
`i + j` is among the emitted lines. -/
theorem mem_taskEntriesFrom (tasks : List Task) : ∀ (i j : Nat) (t : Task),
    tasks[j]? = some t → t.detail ≠ "" →
    (toString (i + j + 1) ++ ". " ++ t.detail) ∈ taskEntriesFrom i tasks := by
  induction tasks with
  | nil => intro i j t h; simp at h
  | cons t' ts ih =>
      intro i j t h hd
      cases j with
      | zero =>
          simp only [List.getElem?_cons_zero, Option.some.injEq] at h
          subst h
          simp [taskEntriesFrom, taskEntry, hd]
      | succ j =>
          have hmem := ih (i + 1) j t (by simpa using h) hd
          have harith : i + (j + 1) + 1 = i + 1 + j + 1 := by omega
          rw [harith]
          exact List.mem_append.mpr (Or.inr hmem)

/-! ## Claims -/

/-- C1 (counterexample): a snapshot whose first task has empty detail and
whose second task has detail `"X"` serializes with the line `2. X` — the
first included task is numbered 2, not 1, and no line `1. X` exists, so the
numbering does not count only the included tasks consecutively from 1. -/
theorem c1_counterexample :
    generateReport "D" ⟨"", "", "", [⟨"", "OK", ""⟩, ⟨"X", "OK", ""⟩]⟩
        = "📅 รายงานวันที่: D\n✅ **รายละเอียดงาน**\n2. X\n   🚦 Status: OK"
      ∧ taskEntriesFrom 0 [⟨"", "OK", ""⟩, ⟨"X", "OK", ""⟩]
        = ["2. X", "   🚦 Status: OK"]
      ∧ "1. X" ∉ taskEntriesFrom 0 [⟨"", "OK", ""⟩, ⟨"X", "OK", ""⟩] := by
  refine ⟨by decide, by decide, by decide⟩

/-- C1 (amended): the serializer excludes tasks with empty detail from the
emitted task lines, and the number assigned to each emitted task line is
that task's 1-based position in the FULL task list (not a consecutive count
over included tasks): the emitted lines are exactly those of the tasks with
non-empty detail, and a task at array position `j` with non-empty detail
contributes the line `(j+1). <detail>`. -/
theorem c1_numbering_by_array_position (tasks : List Task) :
    taskEntriesFrom 0 tasks
        = (((tasks.enumFrom 0).filter (fun p => p.2.detail != "")).map
            (fun p => taskEntry p.1 p.2)).flatten
      ∧ ∀ (j : Nat) (t : Task), tasks[j]? = some t → t.detail ≠ "" →
          (toString (j + 1) ++ ". " ++ t.detail) ∈ taskEntriesFrom 0 tasks := by
  refine ⟨taskEntriesFrom_eq_filter tasks 0, fun j t h hd => ?_⟩
  simpa using mem_taskEntriesFrom tasks 0 j t h hd

/-- C1 (witness): the amended theorem applied at a concrete task list. -/
theorem c1_witness :
    (toString (1 + 1) ++ ". " ++ "X")
      ∈ taskEntriesFrom 0 [⟨"", "OK", ""⟩, ⟨"X", "OK", ""⟩] :=
  (c1_numbering_by_array_position [⟨"", "OK", ""⟩, ⟨"X", "OK", ""⟩]).2
    1 ⟨"X", "OK", ""⟩ (by decide) (by decide)

/-- C6 (counterexample): the whitespace-only string `" "` is accepted by
`validateWorkBom` although it is neither the empty string nor a string
matching the pattern, so the accepted set is not exactly
`{""} ∪ {pattern matches}`. -/
theorem c6_counterexample :
    validateWorkBom " " = true
      ∧ " " ≠ ""
      ∧ matchWorkBomPattern " ".data = false := by
  refine ⟨by decide, by decide, by decide⟩

/-- C6 (amended): `validateWorkBom` accepts exactly the strings whose
trimmed value is empty plus the strings whose trimmed value matches
`WB-[A-Z]\d{4}-\d{4}-[A-Z]` case-insensitively; in particular
`"WB-S2407-0105-A"` (and its lowercasing) passes, `"WB-24-0105-A"` fails,
and `""` passes. -/
theorem c6_workbom_characterization :
    (∀ value : String,
        validateWorkBom value = true ↔
          (jsTrim value = "" ∨ matchWorkBomPattern (jsTrim value).data = true))
      ∧ validateWorkBom "WB-S2407-0105-A" = true
      ∧ validateWorkBom "wb-s2407-0105-a" = true
      ∧ validateWorkBom "WB-24-0105-A" = false
      ∧ validateWorkBom "" = true := by
  refine ⟨fun value => ?_, by decide, by decide, by decide, by decide⟩
  unfold validateWorkBom
  by_cases h : jsTrim value = "" <;> simp [h]

/-- C7: restoring from the snapshot built from the current state is the
identity on the state (scalar fields and task order included) whenever the
task list is non-empty. -/
theorem c7_restore_roundtrip (s : AppState) (h : s.tasks ≠ []) :
    restoreFromHistory (getState s) = s := by
  cases s with
  | mk workBom projectName problems tasks =>
      simp only [restoreFromHistory, getState]
      have : tasks.length > 0 := List.length_pos.mpr h
      simp [this]

/-- C7 (witness): the round-trip at a concrete non-empty state. -/
theorem c7_witness :
    restoreFromHistory (getState ⟨"w", "p", "q", [⟨"d", "NG", "r"⟩]⟩)
      = ⟨"w", "p", "q", [⟨"d", "NG", "r"⟩]⟩ :=
  c7_restore_roundtrip ⟨"w", "p", "q", [⟨"d", "NG", "r"⟩]⟩ (by decide)

/-- C8: when the envelope's `data` field is absent, the importer returns
`false` and the state (scalar fields and task list) is unchanged. -/
theorem c8_import_absent_data (env : ImportEnvelope) (s : AppState)
    (h : env.data = none) : importReport env s = (false, s) := by
  simp [importReport, h]

/-- C8 (witness): the theorem applied at a concrete envelope and state. -/
theorem c8_witness :
    importReport ⟨none⟩ ⟨"w", "p", "q", [⟨"d", "OK", ""⟩]⟩
      = (false, ⟨"w", "p", "q", [⟨"d", "OK", ""⟩]⟩) :=
  c8_import_absent_data ⟨none⟩ ⟨"w", "p", "q", [⟨"d", "OK", ""⟩]⟩ rfl

/-- C9: importing an envelope whose `data` is present and whose
`data.tasks` is the empty array succeeds and leaves zero live tasks
(in JavaScript `[]` is truthy, so `setTasks([])` does run), whereas a
history restore of a snapshot with zero tasks substitutes one blank task. -/
theorem c9_import_empty_tasks :
    (∀ (env : ImportEnvelope) (s : AppState) (d : SnapshotIn),
        env.data = some d → d.tasks = some [] →
        (importReport env s).1 = true ∧ (importReport env s).2.tasks = [])
      ∧ (∀ h : Snapshot, h.tasks = [] →
          (restoreFromHistory h).tasks = [blankTask]) := by
  constructor
  · intro env s d h ht
    simp [importReport, h, ht]
  · intro h ht
    simp [restoreFromHistory, ht]

/-- C9 (witness): the theorem applied at a concrete envelope with
`data.tasks = []` and at a concrete snapshot with no tasks. -/
theorem c9_witness :
    (importReport ⟨some ⟨some "w", some "p", some "q", some []⟩⟩
        ⟨"", "", "", [blankTask]⟩).1 = true
      ∧ (importReport ⟨some ⟨some "w", some "p", some "q", some []⟩⟩
          ⟨"", "", "", [blankTask]⟩).2.tasks = []
      ∧ (restoreFromHistory ⟨"w", "p", "q", []⟩).tasks = [blankTask] :=
  ⟨(c9_import_empty_tasks.1 _ ⟨"", "", "", [blankTask]⟩ _ rfl rfl).1,
   (c9_import_empty_tasks.1 _ ⟨"", "", "", [blankTask]⟩ _ rfl rfl).2,
   c9_import_empty_tasks.2 ⟨"w", "p", "q", []⟩ rfl⟩

/-- C10: both validators trim before checking — a whitespace-only value is
accepted as the empty optional field, the verdict depends only on the
trimmed value (so surrounding whitespace never causes rejection), and the
3–200 project-name bounds apply to the trimmed value (`" AB "` has
untrimmed length 4 but is rejected because its trimmed length is 2). -/
theorem c10_trimmed_validation :
    (∀ s : String, jsTrim s = "" →
        validateWorkBom s = true ∧ validateProjectName s = true)
      ∧ (∀ s t : String, jsTrim s = jsTrim t →
          validateWorkBom s = validateWorkBom t
            ∧ validateProjectName s = validateProjectName t)
      ∧ validateWorkBom "  WB-S2407-0105-A " = true
      ∧ validateProjectName "   " = true
      ∧ validateProjectName " AB " = false
      ∧ " AB ".length = 4
      ∧ (jsTrim " AB ").length = 2
      ∧ validateProjectName " ABC " = true := by
  refine ⟨fun s h => ⟨?_, ?_⟩, fun s t h => ⟨?_, ?_⟩,
    by decide, by decide, by decide, by decide, by decide, by decide⟩
  · simp [validateWorkBom, h]
  · simp [validateProjectName, h]
  · simp only [validateWorkBom, h]
  · simp only [validateProjectName, h]

/-- C10 (witness): the theorem applied at concrete whitespace-only and
whitespace-padded inputs. -/
theorem c10_witness :
    (validateWorkBom "\t\n" = true ∧ validateProjectName "\t\n" = true)
      ∧ validateWorkBom "  WB-s2407-0105-a" = validateWorkBom "WB-s2407-0105-a  " :=
  ⟨c10_trimmed_validation.1 "\t\n" (by decide),
   (c10_trimmed_validation.2.1 "  WB-s2407-0105-a" "WB-s2407-0105-a  "
      (by decide)).1⟩

/-- C2 (counterexample): a snapshot with empty `workBom` and `projectName`
whose FIRST task has empty detail but whose SECOND task has detail `"X"` IS
refused by `saveToHistory` (the guard inspects only `tasks[0].detail`),
although one of its tasks has non-empty detail — contradicting the claimed
"refused if and only if ... no task has a non-empty detail". -/
theorem c2_counterexample :
    saveToHistory (fun _ => true) "t"
        ⟨"", "", "", [⟨"", "OK", ""⟩, ⟨"X", "OK", ""⟩]⟩ [] = (false, [])
      ∧ (Snapshot.tasks ⟨"", "", "", [⟨"", "OK", ""⟩, ⟨"X", "OK", ""⟩]⟩).any
          (fun t => t.detail != "") = true := by
  refine ⟨by decide, by decide⟩

/-- C2 (amended): appending to history is refused (returns `false`,
history unchanged) if and only if `workBom` is empty, `projectName` is
empty, and the task list is empty or its FIRST task has empty detail; the
details of later tasks are never inspected. (Stated for a storage in which
the write itself succeeds; the refusal direction holds for any storage.) -/
theorem c2_refusal_characterization (ts : String) (data : Snapshot)
    (stored : List HistoryItem) :
    (saveToHistory (fun _ => true) ts data stored = (false, stored) ↔
        data.workBom = "" ∧ data.projectName = "" ∧
          (data.tasks = [] ∨
            ∃ t rest, data.tasks = t :: rest ∧ t.detail = ""))
      ∧ (∀ fits : List HistoryItem → Bool,
          data.workBom = "" → data.projectName = "" →
          (data.tasks = [] ∨
            ∃ t rest, data.tasks = t :: rest ∧ t.detail = "") →
          saveToHistory fits ts data stored = (false, stored)) := by
  have hchar : refusedAsEmpty data = true ↔
      data.workBom = "" ∧ data.projectName = "" ∧
        (data.tasks = [] ∨
          ∃ t rest, data.tasks = t :: rest ∧ t.detail = "") := by
    unfold refusedAsEmpty
    cases htasks : data.tasks with
    | nil => simp [htasks]
    | cons t rest => simp [htasks, and_assoc]
  constructor
  · rw [← hchar]
    by_cases hr : refusedAsEmpty data = true
    · simp [saveToHistory, hr]
    · simp [saveToHistory, hr]
  · intro fits h1 h2 h3
    have hr : refusedAsEmpty data = true := hchar.mpr ⟨h1, h2, h3⟩
    simp [saveToHistory, hr]

/-- C2 (witness): the theorem applied at a concrete refused snapshot
(all-empty), under a storage whose writes always fail — the history still
does not change. -/
theorem c2_witness :
    saveToHistory (fun _ => false) "t" ⟨"", "", "", []⟩
        [⟨"old", ⟨"", "p", "", []⟩⟩] = (false, [⟨"old", ⟨"", "p", "", []⟩⟩]) :=
  (c2_refusal_characterization "t" ⟨"", "", "", []⟩
      [⟨"old", ⟨"", "p", "", []⟩⟩]).2 (fun _ => false) rfl rfl (Or.inl rfl)

/-- C3 (counterexample): with a stored history of 10 entries and a storage
that can hold at most 10 entries, the append hits the quota, the recovery
truncates the stored history to 5 entries — but the failed write is NOT
retried: the call returns `false` and the new entry is absent from the
resulting history, contradicting "the retried write succeeds". -/
theorem c3_counterexample :
    saveToHistory (fun h => decide (h.length ≤ 10)) "ts" ⟨"", "P", "", []⟩
        (List.replicate 10 ⟨"t0", ⟨"", "p", "", []⟩⟩)
        = (false, List.replicate 5 ⟨"t0", ⟨"", "p", "", []⟩⟩)
      ∧ (List.replicate 5 (⟨"t0", ⟨"", "p", "", []⟩⟩ : HistoryItem)).length = 5
      ∧ (⟨"ts", ⟨"", "P", "", []⟩⟩ : HistoryItem)
          ∉ List.replicate 5 (⟨"t0", ⟨"", "p", "", []⟩⟩ : HistoryItem) := by
  refine ⟨by decide, by decide, by decide⟩

/-- C3 (amended): on a quota-exceeded append, if the stored history has
more than 5 entries it is truncated to `floor(length/2)` (keeping the most
recent entries) — so 10 entries become 5 — but the failed write is not
retried and the append is reported failed; with 5 or fewer stored entries
no eviction is performed and the append is reported failed. -/
theorem c3_eviction_without_retry (fits : List HistoryItem → Bool)
    (ts : String) (data : Snapshot) (stored : List HistoryItem)
    (hne : refusedAsEmpty data = false)
    (hfail : fits ((⟨ts, data⟩ :: stored).take MAX_HISTORY_ITEMS) = false) :
    (5 < stored.length → fits (stored.take (stored.length / 2)) = true →
        saveToHistory fits ts data stored
          = (false, stored.take (stored.length / 2)))
      ∧ (stored.length ≤ 5 →
          saveToHistory fits ts data stored = (false, stored)) := by
  constructor
  · intro hlen hok
    simp [saveToHistory, hne, hfail, handleQuotaExceeded, hlen, hok]
  · intro hlen
    simp [saveToHistory, hne, hfail, handleQuotaExceeded, Nat.not_lt.mpr hlen]

/-- C3 (witness): the theorem applied at a 10-entry stored history with a
10-entry storage capacity, and at a 4-entry stored history with a 4-entry
capacity. -/
theorem c3_witness :
    saveToHistory (fun h => decide (h.length ≤ 10)) "ts" ⟨"", "P", "", []⟩
        (List.replicate 10 ⟨"t0", ⟨"", "p", "", []⟩⟩)
        = (false, (List.replicate 10 ⟨"t0", ⟨"", "p", "", []⟩⟩).take
            ((List.replicate 10
                (⟨"t0", ⟨"", "p", "", []⟩⟩ : HistoryItem)).length / 2))
      ∧ saveToHistory (fun h => decide (h.length ≤ 4)) "ts" ⟨"", "P", "", []⟩
          (List.replicate 4 ⟨"t0", ⟨"", "p", "", []⟩⟩)
          = (false, List.replicate 4 ⟨"t0", ⟨"", "p", "", []⟩⟩) :=
  ⟨(c3_eviction_without_retry (fun h => decide (h.length ≤ 10)) "ts"
      ⟨"", "P", "", []⟩ (List.replicate 10 ⟨"t0", ⟨"", "p", "", []⟩⟩)
      (by decide) (by decide)).1 (by decide) (by decide),
   (c3_eviction_without_retry (fun h => decide (h.length ≤ 4)) "ts"
      ⟨"", "P", "", []⟩ (List.replicate 4 ⟨"t0", ⟨"", "p", "", []⟩⟩)
      (by decide) (by decide)).2 (by decide)⟩

/-- C4: appending a non-refused snapshot to a stored history of exactly 20
entries (with the write succeeding) keeps the history at exactly 20
entries, places the new entry at index 0, and drops the last (oldest)
stored entry; moreover, for ANY storage behaviour, an append never leaves
the history longer than 20 entries when it was at most 20 before. -/
theorem c4_history_cap :
    (∀ (fits : List HistoryItem → Bool) (ts : String) (data : Snapshot)
        (stored : List HistoryItem),
      refusedAsEmpty data = false → stored.length = 20 →
      fits ((⟨ts, data⟩ :: stored).take MAX_HISTORY_ITEMS) = true →
      saveToHistory fits ts data stored = (true, ⟨ts, data⟩ :: stored.take 19)
        ∧ (⟨ts, data⟩ :: stored.take 19).length = 20
        ∧ (⟨ts, data⟩ :: stored.take 19).head? = some ⟨ts, data⟩
        ∧ stored.take 19 = stored.dropLast)
      ∧ (∀ (fits : List HistoryItem → Bool) (ts : String) (data : Snapshot)
          (stored : List HistoryItem),
        stored.length ≤ 20 →
        (saveToHistory fits ts data stored).2.length ≤ 20) := by
  constructor
  · intro fits ts data stored hne hlen hfit
    have htake : (⟨ts, data⟩ :: stored).take MAX_HISTORY_ITEMS
        = ⟨ts, data⟩ :: stored.take 19 := by
      simp [MAX_HISTORY_ITEMS, List.take_succ_cons]
    rw [htake] at hfit
    refine ⟨?_, ?_, rfl, ?_⟩
    · simp [saveToHistory, hne, htake, hfit]
    · simp [List.length_take, hlen]
    · rw [List.dropLast_eq_take, hlen]
  · intro fits ts data stored hlen
    by_cases hr : refusedAsEmpty data = true
    · simpa [saveToHistory, hr] using hlen
    · by_cases hf : fits (⟨ts, data⟩ :: stored.take 19) = true
      · simp [saveToHistory, hr, hf, List.length_take, MAX_HISTORY_ITEMS,
          List.take_succ_cons]
      · by_cases h5 : stored.length > 5
        · by_cases hok : fits (stored.take (stored.length / 2)) = true
          · simp [saveToHistory, handleQuotaExceeded, hr, hf, h5, hok,
              List.length_take, MAX_HISTORY_ITEMS, List.take_succ_cons]
            omega
          · simpa [saveToHistory, handleQuotaExceeded, hr, hf, h5, hok,
              MAX_HISTORY_ITEMS, List.take_succ_cons] using hlen
        · simpa [saveToHistory, handleQuotaExceeded, hr, hf, h5,
            MAX_HISTORY_ITEMS, List.take_succ_cons] using hlen

/-- C4 (witness): the theorem applied at a concrete 20-entry stored
history under an always-succeeding storage. -/
theorem c4_witness :
    saveToHistory (fun _ => true) "ts" ⟨"", "P", "", []⟩
        (List.replicate 20 ⟨"t0", ⟨"", "p", "", []⟩⟩)
        = (true, ⟨"ts", ⟨"", "P", "", []⟩⟩ ::
            (List.replicate 20 ⟨"t0", ⟨"", "p", "", []⟩⟩).take 19)
      ∧ ((⟨"ts", ⟨"", "P", "", []⟩⟩ : HistoryItem) ::
          (List.replicate 20
            (⟨"t0", ⟨"", "p", "", []⟩⟩ : HistoryItem)).take 19).length = 20 :=
  ⟨(c4_history_cap.1 (fun _ => true) "ts" ⟨"", "P", "", []⟩
      (List.replicate 20 ⟨"t0", ⟨"", "p", "", []⟩⟩)
      (by decide) (by decide) rfl).1,
   (c4_history_cap.1 (fun _ => true) "ts" ⟨"", "P", "", []⟩
      (List.replicate 20 ⟨"t0", ⟨"", "p", "", []⟩⟩)
      (by decide) (by decide) rfl).2.1⟩

/-- C5: `moveTaskUp index` swaps the record at `index` with its immediate
predecessor and returns `true` exactly when `0 < index < length`, and is a
no-op returning `false` when `index ≤ 0` or `index ≥ length`; symmetrically
`moveTaskDown index` swaps with the immediate successor and is a no-op
returning `false` when `index < 0` or `index ≥ length - 1`. The swap is
stated positionally: the two positions exchange contents and every other
position is untouched. -/
theorem c5_move_adjacent_swap (tasks : List Task) (index : Int) :
    ((index ≤ 0 ∨ (tasks.length : Int) ≤ index →
        moveTaskUp index tasks = (false, tasks))
      ∧ (0 < index → index < (tasks.length : Int) →
          (moveTaskUp index tasks).1 = true
            ∧ ((moveTaskUp index tasks).2).length = tasks.length
            ∧ ((moveTaskUp index tasks).2)[index.toNat - 1]?
                = tasks[index.toNat]?
            ∧ ((moveTaskUp index tasks).2)[index.toNat]?
                = tasks[index.toNat - 1]?
            ∧ ∀ j : Nat, j ≠ index.toNat - 1 → j ≠ index.toNat →
                ((moveTaskUp index tasks).2)[j]? = tasks[j]?))
    ∧ ((index < 0 ∨ (tasks.length : Int) - 1 ≤ index →
          moveTaskDown index tasks = (false, tasks))
      ∧ (0 ≤ index → index < (tasks.length : Int) - 1 →
          (moveTaskDown index tasks).1 = true
            ∧ ((moveTaskDown index tasks).2).length = tasks.length
            ∧ ((moveTaskDown index tasks).2)[index.toNat]?
                = tasks[index.toNat + 1]?
            ∧ ((moveTaskDown index tasks).2)[index.toNat + 1]?
                = tasks[index.toNat]?
            ∧ ∀ j : Nat, j ≠ index.toNat → j ≠ index.toNat + 1 →
                ((moveTaskDown index tasks).2)[j]? = tasks[j]?)) := by
  refine ⟨⟨fun h => ?_, fun h1 h2 => ?_⟩, fun h => ?_, fun h1 h2 => ?_⟩
  · unfold moveTaskUp
    rw [if_pos h]
  · have hcond : ¬(index ≤ 0 ∨ (tasks.length : Int) ≤ index) := by omega
    have hi0 : 0 < index.toNat := by omega
    have hi : index.toNat < tasks.length := by omega
    have hi1 : index.toNat - 1 < tasks.length := by omega
    unfold moveTaskUp
    rw [if_neg hcond]
    refine ⟨rfl, by simp, ?_, ?_, fun j hj1 hj2 => ?_⟩
    · rw [List.getElem?_set_ne (by omega : index.toNat ≠ index.toNat - 1),
        List.getElem?_set_eq_of_lt _ hi1, List.getD_eq_getElem?_getD,
        List.getElem?_eq_getElem hi]
      rfl
    · rw [List.getElem?_set_eq_of_lt _ (by simpa using hi),
        List.getD_eq_getElem?_getD, List.getElem?_eq_getElem hi1]
      rfl
    · rw [List.getElem?_set_ne (Ne.symm hj2),
        List.getElem?_set_ne (Ne.symm hj1)]
  · unfold moveTaskDown
    rw [if_pos h]
  · have hcond : ¬(index < 0 ∨ (tasks.length : Int) - 1 ≤ index) := by omega
    have hi : index.toNat < tasks.length := by omega
    have hi1 : index.toNat + 1 < tasks.length := by omega
    unfold moveTaskDown
    rw [if_neg hcond]
    refine ⟨rfl, by simp, ?_, ?_, fun j hj1 hj2 => ?_⟩
    · rw [List.getElem?_set_ne (by omega : index.toNat + 1 ≠ index.toNat),
        List.getElem?_set_eq_of_lt _ hi, List.getD_eq_getElem?_getD,
        List.getElem?_eq_getElem hi1]
      rfl
    · rw [List.getElem?_set_eq_of_lt _ (by simpa using hi1),
        List.getD_eq_getElem?_getD, List.getElem?_eq_getElem hi]
      rfl
    · rw [List.getElem?_set_ne (Ne.symm hj2),
        List.getElem?_set_ne (Ne.symm hj1)]

/-- C5 (witness): the theorem applied to a concrete two-element task list:
an in-range move up at index 1, the boundary no-ops at index 0 (up) and at
index `length-1` (down), and an in-range move down at index 0. -/
theorem c5_witness :
    (moveTaskUp 1 [⟨"a", "OK", ""⟩, ⟨"b", "NG", "r"⟩]).1 = true
      ∧ moveTaskUp 0 [⟨"a", "OK", ""⟩, ⟨"b", "NG", "r"⟩]
          = (false, [⟨"a", "OK", ""⟩, ⟨"b", "NG", "r"⟩])
      ∧ moveTaskDown 1 [⟨"a", "OK", ""⟩, ⟨"b", "NG", "r"⟩]
          = (false, [⟨"a", "OK", ""⟩, ⟨"b", "NG", "r"⟩])
      ∧ (moveTaskDown 0 [⟨"a", "OK", ""⟩, ⟨"b", "NG", "r"⟩]).1 = true :=
  ⟨((c5_move_adjacent_swap [⟨"a", "OK", ""⟩, ⟨"b", "NG", "r"⟩] 1).1.2
      (by decide) (by decide)).1,
   (c5_move_adjacent_swap [⟨"a", "OK", ""⟩, ⟨"b", "NG", "r"⟩] 0).1.1
      (Or.inl (by decide)),
   (c5_move_adjacent_swap [⟨"a", "OK", ""⟩, ⟨"b", "NG", "r"⟩] 1).2.1
      (Or.inr (by decide)),
   ((c5_move_adjacent_swap [⟨"a", "OK", ""⟩, ⟨"b", "NG", "r"⟩] 0).2.2
      (by decide) (by decide)).1⟩

end ReportTool
